import Mathlib

/-! zookeeper-cpp: the client facade and the multi-op containers

A shallow embedding of `src/zk/multi.hpp` (the batch container `multi_op`, the result
container `multi_result` and its tagged `part`) and of `src/zk/client.cpp` (the facade
`client`, its `connect` factory and its forwarding operations), with the properties of
the specification that concern them.

Conventions of the embedding:

* `std::vector<T>` is `Array T`; `operator[]` is the optional lookup `xs[i]?`.
* `string_view` / `std::string` is `String`; `buffer` is a list of bytes.
* A call that may throw returns `Except Exception _`.
* A `future<T>` is either already fulfilled or waits for the signal it was derived from.
* The connection engine is a record of operations in an arbitrary effect `m`; the facade
  is written against that record, exactly as `client` is written against `connection`.
-/

namespace zk

/-! ## Types declared outside the two embedded files -/

/-- Modelled from the spec: `op_type` (declared in `op.hpp`, absent). The operation kinds
the spec names for a multi-op batch: check-version, create, set-data, erase. -/
inductive op_type where
  | check
  | create
  | erase
  | set
  deriving DecidableEq, Repr

/-- Modelled from the spec: `version` (declared in `types.hpp`, absent). An integer token,
`-1` meaning "ignore". -/
abbrev version := Int

/-- Modelled from the spec: `acl_version` (declared in `types.hpp`, absent). The integer
guard of an ACL-set operation. -/
abbrev acl_version := Int

/-- Modelled from the spec: `buffer` (declared in `buffer.hpp`, absent). Data bytes. -/
abbrev buffer := List UInt8

/-- Modelled from the spec: `acl_rule` (declared in `acl.hpp`, absent). One
(identity-scheme, identity, permission-bits) tuple. -/
structure acl_rule where
  scheme : String
  id : String
  permissions : Nat
  deriving DecidableEq, Repr

/-- Modelled from the spec: `acl` (declared in `acl.hpp`, absent). An ordered list of
rules. -/
abbrev acl := List acl_rule

/-- Modelled from the spec: `create_mode` (declared in `types.hpp`, absent). The modes the
spec lists for a create call. -/
inductive create_mode where
  | persistent
  | ephemeral
  | sequential
  | persistent_sequential
  | ephemeral_sequential
  deriving DecidableEq, Repr

/-- Modelled from the spec: `stat` (declared in `types.hpp`, absent). Node metadata; the
spec names only the data version in it. -/
structure stat where
  data_version : version
  deriving DecidableEq, Repr

/-- Modelled from the spec: `create_result` (declared in `results.hpp`, absent). The
payload of a create step: assigned path and node metadata. -/
structure create_result where
  name : String
  stat : stat
  deriving DecidableEq, Repr

/-- Modelled from the spec: `set_result` (declared in `results.hpp`, absent). The payload
of a set-data step: new version metadata. -/
structure set_result where
  stat : stat
  deriving DecidableEq, Repr

/-- Modelled from the spec: `op` (declared in `op.hpp`, absent). One step of a batch:
check-version, create, set-data or erase, with the arguments the spec gives each. -/
inductive op where
  | check (path : String) (check : version)
  | create (path : String) (data : buffer) (rules : acl) (mode : create_mode)
  | erase (path : String) (check : version)
  | set (path : String) (data : buffer) (check : version)
  deriving DecidableEq, Repr

/-- Modelled from the spec: `op::type()` (declared in `op.hpp`, absent). The kind of a
step. -/
def op.type : op → op_type
  | .check _ _ => op_type.check
  | .create _ _ _ _ => op_type.create
  | .erase _ _ => op_type.erase
  | .set _ _ _ => op_type.set

/-- Modelled from the spec: the error causes of the operation taxonomy (declared in
`error.hpp`, absent). -/
inductive error_code where
  | no_such_node
  | version_conflict
  | not_empty
  | permission_denied
  | node_exists
  deriving DecidableEq, Repr

/-- The exceptions that travel through the embedded code. `runtime_error` is the
`std::runtime_error` thrown by `client::connect`; `invalid_access` is the programming
error of a wrongly typed `part` accessor; `transaction_failed` is the failure of a batch;
`engine_failure` stands for any other exception object raised by the engine. -/
inductive Exception where
  | runtime_error (what : String)
  | invalid_access (operation : String) (held : op_type)
  | transaction_failed (cause : error_code) (op_index : Nat)
  | engine_failure (what : String)
  deriving DecidableEq, Repr

/-! ## `multi_op` (multi.hpp, lines 20-72) -/

/-- The class `multi_op`: a wrapper of `std::vector<op> _ops`. -/
structure multi_op where
  _ops : Array op
  deriving DecidableEq, Repr

namespace multi_op

/-- The default constructor `multi_op() noexcept { }`: `_ops` is default-initialised. -/
def default : multi_op := ⟨#[]⟩

/-- The member `size()`: `return _ops.size();`. -/
def size (b : multi_op) : Nat := b._ops.size

/-- The member `operator[](idx)`: `return _ops[idx];`. -/
def index (b : multi_op) (idx : Nat) : Option op := b._ops[idx]?

/-- The member `emplace_back(args...)` called with one `op`:
`_ops.emplace_back(std::forward<TArgs>(args)...)`. -/
def emplace_back (b : multi_op) (x : op) : multi_op := ⟨b._ops.push x⟩

/-- The overload `push_back(op&& x)`: `emplace_back(std::move(x))`. -/
def push_back_move (b : multi_op) (x : op) : multi_op := b.emplace_back x

/-- The overload `push_back(const op& x)`: `emplace_back(x)`. -/
def push_back (b : multi_op) (x : op) : multi_op := b.emplace_back x

end multi_op

/-! ## `multi_result` and `multi_result::part` (multi.hpp, lines 78-160) -/

namespace multi_result

/-- The private alias `any_result = std::variant<std::monostate, create_result, set_result>`
of `part`. -/
inductive any_result where
  | monostate
  | create_result (r : zk.create_result)
  | set_result (r : zk.set_result)
  deriving DecidableEq, Repr

/-- The class `multi_result::part`: the two private members `_type` and `_storage`. -/
structure part where
  _type : op_type
  _storage : any_result
  deriving DecidableEq, Repr

namespace part

/-- Modelled from the spec: the constructor `part(op_type, std::nullptr_t)` (declared in
multi.hpp line 85, defined in the absent `multi.cpp`). The element is tagged with the
given kind and is empty. -/
def of_type (type : op_type) : part := ⟨type, any_result.monostate⟩

/-- Modelled from the spec: the constructor `part(create_result)` (declared in multi.hpp
line 86, defined in the absent `multi.cpp`). The element is tagged create and holds the
create payload. -/
def of_create (res : zk.create_result) : part := ⟨op_type.create, any_result.create_result res⟩

/-- Modelled from the spec: the constructor `part(set_result)` (declared in multi.hpp
line 87, defined in the absent `multi.cpp`). The element is tagged set and holds the
set-data payload. -/
def of_set (res : zk.set_result) : part := ⟨op_type.set, any_result.set_result res⟩

/-- The member `type()`: `return _type;`. -/
def type (p : part) : op_type := p._type

/-- Modelled from the spec: the accessor `as_create()` (declared in multi.hpp line 100,
defined in the absent `multi.cpp`, through the private template `as<T>(operation)`). It
yields the create payload and fails fast on a kind mismatch. -/
def as_create (p : part) : Except Exception zk.create_result :=
  match p._storage with
  | any_result.create_result r => Except.ok r
  | _ => Except.error (Exception.invalid_access "as_create" p.type)

/-- Modelled from the spec: the accessor `as_set()` (declared in multi.hpp line 102,
defined in the absent `multi.cpp`, through the private template `as<T>(operation)`). It
yields the set-data payload and fails fast on a kind mismatch. -/
def as_set (p : part) : Except Exception zk.set_result :=
  match p._storage with
  | any_result.set_result r => Except.ok r
  | _ => Except.error (Exception.invalid_access "as_set" p.type)

/-- The parts that the public constructors of `part` can build: the three explicit
constructors (the copy and move constructors reproduce a part that already exists). -/
inductive constructible : part → Prop where
  | from_type (type : op_type) : constructible (of_type type)
  | from_create (res : zk.create_result) : constructible (of_create res)
  | from_set (res : zk.set_result) : constructible (of_set res)

end part

end multi_result

/-- The class `multi_result`: a wrapper of `std::vector<part> _parts`. -/
structure multi_result where
  _parts : Array multi_result.part
  deriving DecidableEq, Repr

namespace multi_result

/-- The member `size()`: `return _parts.size();`. -/
def size (r : multi_result) : Nat := r._parts.size

/-- The member `operator[](idx)`: `return _parts[idx];`. -/
def index (r : multi_result) (idx : Nat) : Option part := r._parts[idx]?

end multi_result

/-! ## The multi-op transaction codec (engine side, absent from the sources) -/

/-- Modelled from the spec: what the server reports for one committed step, the assigned
path and the node metadata (the raw result slot the decoder reads; the engine is absent). -/
structure step_reply where
  path : String
  stat : stat
  deriving DecidableEq, Repr

/-- Modelled from the spec: the reply of the server to one batch (the engine is absent).
Either overall success, with one result slot per step index, or one failure carrying the
cause and the zero-based index of the offending step. -/
inductive commit_reply where
  | success (steps : Nat → step_reply)
  | failure (cause : error_code) (op_index : Nat)

/-- Modelled from the spec: the decoding of one step (the engine is absent). The tag is the
kind of the input operation and the payload is populated according to that kind:
create gives path and metadata, set-data gives metadata, check and erase give nothing. -/
def decode_step (x : op) (r : step_reply) : multi_result.part :=
  match x.type with
  | op_type.create => multi_result.part.of_create ⟨r.path, r.stat⟩
  | op_type.set => multi_result.part.of_set ⟨r.stat⟩
  | op_type.check => multi_result.part.of_type op_type.check
  | op_type.erase => multi_result.part.of_type op_type.erase

/-- Modelled from the spec: the outcome of `connection::commit` (declared in
`connection.hpp`, absent) for a batch and the reply of the server. On success the result
list follows the batch step by step; on failure one failure is surfaced and no result list
is built. -/
def connection_commit (txn : multi_op) : commit_reply → Except Exception multi_result
  | commit_reply.success steps =>
      Except.ok ⟨txn._ops.mapIdx (fun i x => decode_step x (steps i))⟩
  | commit_reply.failure cause op_index =>
      Except.error (Exception.transaction_failed cause op_index)

/-! ## Futures and promises (the folly primitives used by `client::connect`) -/

/-- The outcome a future ends with: a value or an exception (`folly::Try`). -/
abbrev Try (α : Type) := Except Exception α

/-- A `future<T>` derived from a signal that carries a `σ`: either its promise is already
fulfilled, or it is fulfilled, by `k`, when the signal completes. -/
inductive future (σ : Type) (α : Type) where
  | fulfilled (t : Try α)
  | awaiting (k : Try σ → Try α)

namespace future

/-- The outcome of a future once its signal has completed with `sig`. -/
def result {σ α : Type} : future σ α → Try σ → Try α
  | fulfilled t, _ => t
  | awaiting k, sig => k sig

/-- The member `thenValue(f)`: the continuation runs on the value of the future, an
exception of the future skips it, and an exception thrown by `f` fulfils the new future. -/
def thenValue {σ α β : Type} (fut : future σ α) (f : α → Try β) : future σ β :=
  match fut with
  | fulfilled t => fulfilled (t.bind f)
  | awaiting k => awaiting (fun sig => (k sig).bind f)

end future

/-- The sequence `promise<T> p; p.setValue(v); return p.getFuture();`. -/
def promise_setValue {σ α : Type} (v : α) : future σ α := future.fulfilled (Except.ok v)

/-- The sequence `promise<T> p; p.setException(e); return p.getFuture();`. -/
def promise_setException {σ α : Type} (e : Exception) : future σ α :=
  future.fulfilled (Except.error e)

/-! ## The connection engine, as the facade sees it -/

/-- Modelled from the spec: `state` (declared in `types.hpp`, absent). The connection
states the spec enumerates. -/
inductive state where
  | disconnected
  | connecting
  | connected
  | reconnecting
  | expired
  | closed
  deriving DecidableEq, Repr

/-- Modelled from the spec: `connection_params` (declared in `connection.hpp`, absent). The
endpoint set: server addresses, session timeout and optional auth credential. -/
structure connection_params where
  hosts : List String
  timeout : Nat
  auth : Option String
  deriving DecidableEq, Repr

/-- The result types `T` of the handles `future<T>` that the engine operations return
(all declared in `results.hpp` and `multi.hpp`; the facade never looks inside them). -/
inductive result_kind where
  | get_result
  | watch_result
  | get_children_result
  | watch_children_result
  | exists_result
  | watch_exists_result
  | create_result
  | set_result
  | get_acl_result
  | promise_void
  | multi_result
  deriving DecidableEq, Repr

/-- The interface of the class `connection` (declared in `connection.hpp`, absent), with
the member functions `client.cpp` calls. Every member runs in the effect `m` of the
engine; `F k` is the handle type `future<k>` of the engine. -/
structure connection (m : Type → Type) (F : result_kind → Type) where
  watch_state : m (future state state)
  state : m state
  close : m Unit
  get : String → m (F result_kind.get_result)
  watch : String → m (F result_kind.watch_result)
  get_children : String → m (F result_kind.get_children_result)
  watch_children : String → m (F result_kind.watch_children_result)
  «exists» : String → m (F result_kind.exists_result)
  watch_exists : String → m (F result_kind.watch_exists_result)
  create : String → buffer → acl → create_mode → m (F result_kind.create_result)
  set : String → buffer → version → m (F result_kind.set_result)
  get_acl : String → m (F result_kind.get_acl_result)
  set_acl : String → acl → acl_version → m (F result_kind.promise_void)
  erase : String → version → m (F result_kind.promise_void)
  load_fence : m (F result_kind.promise_void)
  commit : multi_op → m (F result_kind.multi_result)

/-! ## `client` (client.cpp) -/

/-- The class `client`: the private member `_conn`, set by
`client::client(std::shared_ptr<connection> conn)`. -/
structure client (m : Type → Type) (F : result_kind → Type) where
  _conn : connection m F

namespace client

variable {m : Type → Type} {F : result_kind → Type}

/-- The member `client::close` (lines 67-69). -/
def close (c : client m F) : m Unit :=
  c._conn.close

/-- The member `client::get` (lines 71-73). -/
def get (c : client m F) (path : String) : m (F result_kind.get_result) :=
  c._conn.get path

/-- The member `client::watch` (lines 75-77). -/
def watch (c : client m F) (path : String) : m (F result_kind.watch_result) :=
  c._conn.watch path

/-- The member `client::get_children` (lines 79-81). -/
def get_children (c : client m F) (path : String) : m (F result_kind.get_children_result) :=
  c._conn.get_children path

/-- The member `client::watch_children` (lines 83-85). -/
def watch_children (c : client m F) (path : String) :
    m (F result_kind.watch_children_result) :=
  c._conn.watch_children path

/-- The member `client::exists` (lines 87-89). -/
def «exists» (c : client m F) (path : String) : m (F result_kind.exists_result) :=
  c._conn.exists path

/-- The member `client::watch_exists` (lines 91-93). -/
def watch_exists (c : client m F) (path : String) : m (F result_kind.watch_exists_result) :=
  c._conn.watch_exists path

/-- The overload `client::create(path, data, rules, mode)` (lines 95-101). -/
def create (c : client m F) (path : String) (data : buffer) (rules : acl)
    (mode : create_mode) : m (F result_kind.create_result) :=
  c._conn.create path data rules mode

/-- The overload `client::create(path, data, mode)` (lines 103-108). The constant
`acls::open_unsafe()` is defined in the absent `acl.cpp` and is taken as the argument
`open_rules`. -/
def create_default (open_rules : acl) (c : client m F) (path : String) (data : buffer)
    (mode : create_mode) : m (F result_kind.create_result) :=
  c.create path data open_rules mode

/-- The member `client::set` (lines 110-112). -/
def set (c : client m F) (path : String) (data : buffer) (check : version) :
    m (F result_kind.set_result) :=
  c._conn.set path data check

/-- The member `client::get_acl` (lines 114-116). -/
def get_acl (c : client m F) (path : String) : m (F result_kind.get_acl_result) :=
  c._conn.get_acl path

/-- The member `client::set_acl` (lines 118-120). -/
def set_acl (c : client m F) (path : String) (rules : acl) (check : acl_version) :
    m (F result_kind.promise_void) :=
  c._conn.set_acl path rules check

/-- The member `client::erase` (lines 122-124). -/
def erase (c : client m F) (path : String) (check : version) :
    m (F result_kind.promise_void) :=
  c._conn.erase path check

/-- The member `client::load_fence` (lines 126-128). -/
def load_fence (c : client m F) : m (F result_kind.promise_void) :=
  c._conn.load_fence

/-- The member `client::commit` (lines 130-132). -/
def commit (c : client m F) (txn : multi_op) : m (F result_kind.multi_result) :=
  c._conn.commit txn

/-- The body of the `try` block of `client::connect(connection_params)` (lines 30-56).
The static factory `connection::connect` and `to_string(state)` are defined in absent
files and are taken as arguments. Each of the three engine calls may throw. -/
def connect_try
    (connection_connect : connection_params → Except Exception (connection (Except Exception) F))
    (to_string : state → String) (conn_params : connection_params) :
    Except Exception (future state (client (Except Exception) F)) := do
  let conn ← connection_connect conn_params
  let state_change_fut ← conn.watch_state
  if (← conn.state) = state.connected then
    pure (promise_setValue (client.mk conn))
  else
    pure (state_change_fut.thenValue (fun s =>
      if s = state.connected then
        Except.ok (client.mk conn)
      else
        Except.error (Exception.runtime_error ("Unexpected state: " ++ to_string s))))

/-- The static member `client::connect(connection_params)` (lines 28-63): the `try` block
and the handler `catch (...)`, which stores the current exception in a fresh promise. An
`Except.error` result would be an exception that escapes the call. -/
def connect
    (connection_connect : connection_params → Except Exception (connection (Except Exception) F))
    (to_string : state → String) (conn_params : connection_params) :
    Except Exception (future state (client (Except Exception) F)) :=
  tryCatch (connect_try connection_connect to_string conn_params)
    (fun e => pure (promise_setException e))

end client

/-! ## A recording engine -/

/-- One call received by the engine, with the arguments it was given. -/
inductive engine_call where
  | watch_state
  | state
  | close
  | get (path : String)
  | watch (path : String)
  | get_children (path : String)
  | watch_children (path : String)
  | «exists» (path : String)
  | watch_exists (path : String)
  | create (path : String) (data : buffer) (rules : acl) (mode : create_mode)
  | set (path : String) (data : buffer) (check : version)
  | get_acl (path : String)
  | set_acl (path : String) (rules : acl) (check : acl_version)
  | erase (path : String) (check : version)
  | load_fence
  | commit (txn : multi_op)
  deriving DecidableEq, Repr

/-- The effect of the recording engine: a computation that reads the calls received so
far and returns its value with the calls received afterwards. -/
abbrev logged (α : Type) : Type := List engine_call → α × List engine_call

/-- The recording engine appends `call` to the calls received and returns `value`. -/
def record {α : Type} (call : engine_call) (value : List engine_call → α) : logged α :=
  fun calls => (value calls, calls ++ [call])

/-- An engine that records every call it receives. The handle it returns is the number of
calls received before, so that two calls never return the same handle. -/
def recorder : connection logged (fun _ => Nat) where
  watch_state := record engine_call.watch_state (fun _ => future.awaiting id)
  state := record engine_call.state (fun _ => state.connecting)
  close := record engine_call.close (fun _ => ())
  get := fun path => record (engine_call.get path) List.length
  watch := fun path => record (engine_call.watch path) List.length
  get_children := fun path => record (engine_call.get_children path) List.length
  watch_children := fun path => record (engine_call.watch_children path) List.length
  «exists» := fun path => record (engine_call.exists path) List.length
  watch_exists := fun path => record (engine_call.watch_exists path) List.length
  create := fun path data rules mode =>
    record (engine_call.create path data rules mode) List.length
  set := fun path data check => record (engine_call.set path data check) List.length
  get_acl := fun path => record (engine_call.get_acl path) List.length
  set_acl := fun path rules check => record (engine_call.set_acl path rules check) List.length
  erase := fun path check => record (engine_call.erase path check) List.length
  load_fence := record engine_call.load_fence List.length
  commit := fun txn => record (engine_call.commit txn) List.length

/-- The ACL rule sets of the create calls among `calls`, in order. -/
def create_rules : List engine_call → List acl
  | [] => []
  | engine_call.create _ _ rules _ :: rest => rules :: create_rules rest
  | _ :: rest => create_rules rest

/-- An engine whose three session calls succeed with a pending state-change signal and the
state `st`, and whose operations return an empty handle. A concrete input for `connect`. -/
def session_engine (st : state) : connection (Except Exception) (fun _ => Unit) where
  watch_state := Except.ok (future.awaiting id)
  state := Except.ok st
  close := Except.ok ()
  get := fun _ => Except.ok ()
  watch := fun _ => Except.ok ()
  get_children := fun _ => Except.ok ()
  watch_children := fun _ => Except.ok ()
  «exists» := fun _ => Except.ok ()
  watch_exists := fun _ => Except.ok ()
  create := fun _ _ _ _ => Except.ok ()
  set := fun _ _ _ => Except.ok ()
  get_acl := fun _ => Except.ok ()
  set_acl := fun _ _ _ => Except.ok ()
  erase := fun _ _ => Except.ok ()
  load_fence := Except.ok ()
  commit := fun _ => Except.ok ()

/-! ## Properties of `multi_op` -/

/-- C8: a default-constructed `multi_op` has size 0, and after `push_back` (either
overload) or `emplace_back` of `x` on a batch `b` of size `n`, the size is `n + 1`, the
element at `n` is `x` and every element at an index below `n` is unchanged. -/
theorem multi_op_push_back_appends (b : multi_op) (x : op) :
    multi_op.default.size = 0 ∧
    ∀ b2 : multi_op,
      (b2 = b.push_back x ∨ b2 = b.push_back_move x ∨ b2 = b.emplace_back x) →
      b2.size = b.size + 1 ∧ b2.index b.size = some x ∧
      ∀ i : Nat, i < b.size → b2.index i = b.index i := by
  refine ⟨rfl, ?_⟩
  intro b2 hb2
  have h : b2 = ⟨b._ops.push x⟩ := by
    rcases hb2 with h | h | h <;> exact h
  subst h
  refine ⟨Array.size_push _ _, Array.getElem?_push_eq _ _, ?_⟩
  intro i hi
  have hi2 : i < b._ops.size := hi
  show (b._ops.push x)[i]? = b._ops[i]?
  rw [Array.getElem?_push_lt _ _ _ hi2, Array.getElem?_eq_getElem hi2]

/-! ## Properties of `multi_result::part` -/

/-- C2: an accessor typed for a different kind than the payload fails: in general
`as_create` fails on every part whose payload is not a create payload and `as_set` on every
part whose payload is not a set payload; in particular `as_set` fails on every part built
from a `create_result`, `as_create` on every part built from a `set_result`, and both on
every part built with `part(op_type, nullptr)`. -/
theorem part_wrong_accessor_fails :
    (∀ p : multi_result.part,
      ((∀ r, p._storage ≠ multi_result.any_result.create_result r) →
        ∃ e, p.as_create = Except.error e) ∧
      ((∀ r, p._storage ≠ multi_result.any_result.set_result r) →
        ∃ e, p.as_set = Except.error e)) ∧
    (∀ r : create_result, ∃ e, (multi_result.part.of_create r).as_set = Except.error e) ∧
    (∀ r : set_result, ∃ e, (multi_result.part.of_set r).as_create = Except.error e) ∧
    (∀ t : op_type,
      (∃ e, (multi_result.part.of_type t).as_create = Except.error e) ∧
      (∃ e, (multi_result.part.of_type t).as_set = Except.error e)) := by
  refine ⟨?_, ?_, ?_, ?_⟩
  · rintro ⟨t, st⟩
    constructor
    · intro h
      cases st with
      | monostate => exact ⟨_, rfl⟩
      | create_result r => exact absurd rfl (h r)
      | set_result r => exact ⟨_, rfl⟩
    · intro h
      cases st with
      | monostate => exact ⟨_, rfl⟩
      | create_result r => exact ⟨_, rfl⟩
      | set_result r => exact absurd rfl (h r)
  · intro r
    exact ⟨_, rfl⟩
  · intro r
    exact ⟨_, rfl⟩
  · intro t
    exact ⟨⟨_, rfl⟩, ⟨_, rfl⟩⟩

/-- C3, as stated, fails: the part built with `part(op_type::create, nullptr)` is built
by a public constructor and has type create, but its payload is empty, not a
`create_result`. -/
theorem part_create_tag_without_payload :
    multi_result.part.constructible (multi_result.part.of_type op_type.create) ∧
    (multi_result.part.of_type op_type.create).type = op_type.create ∧
    ¬ ∃ r, (multi_result.part.of_type op_type.create)._storage =
      multi_result.any_result.create_result r := by
  refine ⟨multi_result.part.constructible.from_type _, rfl, ?_⟩
  rintro ⟨r, hr⟩
  cases hr

/-- C3, amended: for every part built through the public constructors, a create payload
occurs only under type create and a set payload only under type set; under type create the
payload is a create payload or empty, under type set it is a set payload or empty, and
under every other type it is empty. -/
theorem part_tag_payload_consistent (p : multi_result.part)
    (h : multi_result.part.constructible p) :
    ((∃ r, p._storage = multi_result.any_result.create_result r) → p.type = op_type.create) ∧
    ((∃ r, p._storage = multi_result.any_result.set_result r) → p.type = op_type.set) ∧
    (p.type = op_type.create →
      (∃ r, p._storage = multi_result.any_result.create_result r) ∨
        p._storage = multi_result.any_result.monostate) ∧
    (p.type = op_type.set →
      (∃ r, p._storage = multi_result.any_result.set_result r) ∨
        p._storage = multi_result.any_result.monostate) ∧
    (p.type ≠ op_type.create → p.type ≠ op_type.set →
      p._storage = multi_result.any_result.monostate) := by
  cases h with
  | from_type t =>
    refine ⟨?_, ?_, fun _ => Or.inr rfl, fun _ => Or.inr rfl, fun _ _ => rfl⟩
    · rintro ⟨r, hr⟩
      cases hr
    · rintro ⟨r, hr⟩
      cases hr
  | from_create res =>
    refine ⟨fun _ => rfl, ?_, fun _ => Or.inl ⟨res, rfl⟩, ?_, fun h1 _ => absurd rfl h1⟩
    · rintro ⟨r, hr⟩
      cases hr
    · intro ht
      cases ht
  | from_set res =>
    refine ⟨?_, fun _ => rfl, ?_, fun _ => Or.inl ⟨res, rfl⟩, fun _ h2 => absurd rfl h2⟩
    · rintro ⟨r, hr⟩
      cases hr
    · intro ht
      cases ht

/-- The amended C3 at the part built from the create payload of node "/x". -/
theorem part_tag_payload_consistent_witness :
    multi_result.part.constructible (multi_result.part.of_create ⟨"/x", ⟨0⟩⟩) ∧
    (multi_result.part.of_create ⟨"/x", ⟨0⟩⟩).type = op_type.create ∧
    (∃ r, (multi_result.part.of_create ⟨"/x", ⟨0⟩⟩)._storage =
      multi_result.any_result.create_result r) :=
  ⟨multi_result.part.constructible.from_create _, rfl,
    ((part_tag_payload_consistent _
      (multi_result.part.constructible.from_create ⟨"/x", ⟨0⟩⟩)).2.2.1 rfl).resolve_right
        (by intro hm; cases hm)⟩

/-- C4: a typed part gives back what it was built from: `part(r)` of a `create_result` has
type create and `as_create()` yields `r`; `part(r)` of a `set_result` has type set and
`as_set()` yields `r`; `part(t, nullptr)` has type `t`. -/
theorem part_round_trip :
    (∀ r : create_result,
      (multi_result.part.of_create r).type = op_type.create ∧
      (multi_result.part.of_create r).as_create = Except.ok r) ∧
    (∀ r : set_result,
      (multi_result.part.of_set r).type = op_type.set ∧
      (multi_result.part.of_set r).as_set = Except.ok r) ∧
    (∀ t : op_type, (multi_result.part.of_type t).type = t) :=
  ⟨fun _ => ⟨rfl, rfl⟩, fun _ => ⟨rfl, rfl⟩, fun _ => rfl⟩

/-! ## Properties of the facade -/

/-- The create rule sets of a list of calls followed by one create call. -/
theorem create_rules_append_create (calls : List engine_call) (path : String) (data : buffer)
    (rules : acl) (mode : create_mode) :
    create_rules (calls ++ [engine_call.create path data rules mode]) =
      create_rules calls ++ [rules] := by
  induction calls with
  | nil => rfl
  | cons c rest ih =>
    cases c <;> simp [create_rules, ih]

/-- C5: every facade operation that takes its arguments explicitly is the same-named
operation of the engine at the same arguments, for every engine and every effect of the
engine: one engine call, the arguments unchanged, the handle of the engine returned as it
is; a version guard, the sentinel `-1` included, reaches the engine unmodified. On the
recording engine each operation adds exactly one call, the one with the arguments given,
and returns the handle of that call. -/
theorem facade_pass_through {m : Type → Type} {F : result_kind → Type} (c : connection m F) :
    ((∀ path, (client.mk c).get path = c.get path) ∧
     (∀ path, (client.mk c).watch path = c.watch path) ∧
     (∀ path, (client.mk c).get_children path = c.get_children path) ∧
     (∀ path, (client.mk c).watch_children path = c.watch_children path) ∧
     (∀ path, (client.mk c).exists path = c.exists path) ∧
     (∀ path, (client.mk c).watch_exists path = c.watch_exists path) ∧
     (∀ path data rules mode,
        (client.mk c).create path data rules mode = c.create path data rules mode) ∧
     (∀ path data check, (client.mk c).set path data check = c.set path data check) ∧
     (∀ path data, (client.mk c).set path data (-1) = c.set path data (-1)) ∧
     (∀ path, (client.mk c).get_acl path = c.get_acl path) ∧
     (∀ path rules check, (client.mk c).set_acl path rules check = c.set_acl path rules check) ∧
     (∀ path check, (client.mk c).erase path check = c.erase path check) ∧
     (∀ path, (client.mk c).erase path (-1) = c.erase path (-1)) ∧
     (client.mk c).load_fence = c.load_fence ∧
     (∀ txn, (client.mk c).commit txn = c.commit txn)) ∧
    (∀ calls : List engine_call,
     (∀ path, (client.mk recorder).get path calls =
        (calls.length, calls ++ [engine_call.get path])) ∧
     (∀ path, (client.mk recorder).watch path calls =
        (calls.length, calls ++ [engine_call.watch path])) ∧
     (∀ path, (client.mk recorder).get_children path calls =
        (calls.length, calls ++ [engine_call.get_children path])) ∧
     (∀ path, (client.mk recorder).watch_children path calls =
        (calls.length, calls ++ [engine_call.watch_children path])) ∧
     (∀ path, (client.mk recorder).exists path calls =
        (calls.length, calls ++ [engine_call.exists path])) ∧
     (∀ path, (client.mk recorder).watch_exists path calls =
        (calls.length, calls ++ [engine_call.watch_exists path])) ∧
     (∀ path data rules mode, (client.mk recorder).create path data rules mode calls =
        (calls.length, calls ++ [engine_call.create path data rules mode])) ∧
     (∀ path data check, (client.mk recorder).set path data check calls =
        (calls.length, calls ++ [engine_call.set path data check])) ∧
     (∀ path, (client.mk recorder).get_acl path calls =
        (calls.length, calls ++ [engine_call.get_acl path])) ∧
     (∀ path rules check, (client.mk recorder).set_acl path rules check calls =
        (calls.length, calls ++ [engine_call.set_acl path rules check])) ∧
     (∀ path check, (client.mk recorder).erase path check calls =
        (calls.length, calls ++ [engine_call.erase path check])) ∧
     ((client.mk recorder).load_fence calls =
        (calls.length, calls ++ [engine_call.load_fence])) ∧
     (∀ txn, (client.mk recorder).commit txn calls =
        (calls.length, calls ++ [engine_call.commit txn]))) := by
  refine ⟨⟨fun _ => rfl, fun _ => rfl, fun _ => rfl, fun _ => rfl, fun _ => rfl,
    fun _ => rfl, fun _ _ _ _ => rfl, fun _ _ _ => rfl, fun _ _ => rfl, fun _ => rfl,
    fun _ _ _ => rfl, fun _ _ => rfl, fun _ => rfl, rfl, fun _ => rfl⟩, ?_⟩
  intro calls
  exact ⟨fun _ => rfl, fun _ => rfl, fun _ => rfl, fun _ => rfl, fun _ => rfl,
    fun _ => rfl, fun _ _ _ _ => rfl, fun _ _ _ => rfl, fun _ => rfl,
    fun _ _ _ => rfl, fun _ _ => rfl, rfl, fun _ => rfl⟩

/-- C6: `create(path, data, mode)` is `create(path, data, acls::open_unsafe(), mode)` with
path, data and mode unchanged, and `create(path, data, rules, mode)` hands the rule set of
the caller to the engine: on every engine the two overloads are the engine call at
`open_rules` and at `rules`, and on the recording engine the one call received carries
`open_rules` when the caller omits the rule set and `rules` when the caller passes it. -/
theorem create_default_acl_only_when_omitted {m : Type → Type} {F : result_kind → Type}
    (open_rules : acl) (c : connection m F) (path : String) (data : buffer)
    (mode : create_mode) :
    (client.mk c).create_default open_rules path data mode =
      (client.mk c).create path data open_rules mode ∧
    (client.mk c).create_default open_rules path data mode =
      c.create path data open_rules mode ∧
    (∀ rules : acl, (client.mk c).create path data rules mode =
      c.create path data rules mode) ∧
    (∀ calls : List engine_call,
      (client.mk recorder).create_default open_rules path data mode calls =
        (calls.length, calls ++ [engine_call.create path data open_rules mode])) ∧
    (∀ (rules : acl) (calls : List engine_call),
      (client.mk recorder).create path data rules mode calls =
        (calls.length, calls ++ [engine_call.create path data rules mode])) :=
  ⟨rfl, rfl, fun _ => rfl, fun _ => rfl, fun _ _ => rfl⟩

/-- C7, as stated, fails: a create call through the facade with an empty rule set hands
the empty rule set to the engine. -/
theorem create_empty_acl_reaches_engine :
    create_rules
      ((client.mk recorder).create "/a" [] [] create_mode.persistent []).2 = [[]] := by
  decide

/-- C7, amended: a create call without an ACL argument hands `acls::open_unsafe()` to the
engine, which is non-empty when `acls::open_unsafe()` is; a create call with an ACL
argument hands that argument to the engine, so the rule set that reaches the engine is
non-empty exactly when the argument is. -/
theorem create_acl_nonempty_when_given (open_rules : acl) (h : open_rules ≠ [])
    (path : String) (data : buffer) (mode : create_mode) (calls : List engine_call) :
    (create_rules ((client.mk recorder).create_default open_rules path data mode calls).2 =
        create_rules calls ++ [open_rules] ∧
      ∀ reached : acl, create_rules
          ((client.mk recorder).create_default open_rules path data mode calls).2 =
        create_rules calls ++ [reached] → reached ≠ []) ∧
    (∀ rules : acl,
      create_rules ((client.mk recorder).create path data rules mode calls).2 =
        create_rules calls ++ [rules] ∧
      ∀ reached : acl, create_rules
          ((client.mk recorder).create path data rules mode calls).2 =
        create_rules calls ++ [reached] → (reached ≠ [] ↔ rules ≠ [])) := by
  have key : ∀ rules reached : acl,
      create_rules ((client.mk recorder).create path data rules mode calls).2 =
        create_rules calls ++ [reached] → reached = rules := by
    intro rules reached hr
    have h1 : create_rules ((client.mk recorder).create path data rules mode calls).2 =
        create_rules calls ++ [rules] := create_rules_append_create _ _ _ _ _
    rw [h1] at hr
    have h2 := List.append_cancel_left hr
    simpa using h2.symm
  refine ⟨⟨create_rules_append_create _ _ _ _ _, ?_⟩, ?_⟩
  · intro reached hr
    rw [key open_rules reached hr]
    exact h
  · intro rules
    refine ⟨create_rules_append_create _ _ _ _ _, ?_⟩
    intro reached hr
    rw [key rules reached hr]

/-- The amended C7 at the open rule set (world, anyone, all permissions) and node "/a". -/
theorem create_acl_nonempty_when_given_witness :
    ([⟨"world", "anyone", 31⟩] : acl) ≠ [] ∧
    create_rules ((client.mk recorder).create_default [⟨"world", "anyone", 31⟩]
      "/a" [] create_mode.persistent []).2 = [] ++ [[⟨"world", "anyone", 31⟩]] :=
  ⟨by decide,
    (create_acl_nonempty_when_given [⟨"world", "anyone", 31⟩] (by decide) "/a" []
      create_mode.persistent []).1.1⟩

/-! ## Properties of `commit` -/

/-- The tag of a decoded step is the kind of the input operation. -/
theorem decode_step_type (x : op) (r : step_reply) : (decode_step x r).type = x.type := by
  cases x <;> rfl

/-- C9: the facade hands the batch to the engine; whenever `commit(b)` succeeds with a
`multi_result` `r`, `r.size() == b.size()` and for every index `i < b.size()` the type of
`r[i]` is the `op_type` of `b[i]`; a success reply of the server does yield such a result,
and a failure reply yields the failure alone, never a `multi_result`. -/
theorem commit_result_matches_batch {m : Type → Type} {F : result_kind → Type}
    (c : connection m F) (b : multi_op) :
    (client.mk c).commit b = c.commit b ∧
    (∀ (reply : commit_reply) (r : multi_result), connection_commit b reply = Except.ok r →
      r.size = b.size ∧
      ∀ i : Nat, i < b.size →
        ∃ p x, r.index i = some p ∧ b.index i = some x ∧ p.type = x.type) ∧
    (∀ steps : Nat → step_reply, ∃ r, connection_commit b (commit_reply.success steps) =
      Except.ok r) ∧
    (∀ (cause : error_code) (op_index : Nat),
      connection_commit b (commit_reply.failure cause op_index) =
        Except.error (Exception.transaction_failed cause op_index) ∧
      ∀ r, connection_commit b (commit_reply.failure cause op_index) ≠ Except.ok r) := by
  refine ⟨rfl, ?_, fun steps => ⟨_, rfl⟩, fun cause op_index => ⟨rfl, ?_⟩⟩
  · intro reply r hr
    cases reply with
    | failure cause op_index => cases hr
    | success steps =>
      have hr2 : r = ⟨b._ops.mapIdx (fun i x => decode_step x (steps i))⟩ := by
        simp only [connection_commit, Except.ok.injEq] at hr
        exact hr.symm
      subst hr2
      refine ⟨Array.size_mapIdx _ _, ?_⟩
      intro i hi
      have hi2 : i < b._ops.size := hi
      refine ⟨decode_step b._ops[i] (steps i), b._ops[i], ?_, ?_, decode_step_type _ _⟩
      · show (b._ops.mapIdx (fun i x => decode_step x (steps i)))[i]? = _
        rw [Array.getElem?_mapIdx, Array.getElem?_eq_getElem hi2]
        rfl
      · exact Array.getElem?_eq_getElem hi2
  · intro r hr
    cases hr

/-! ## Properties of `client::connect` -/

/-- C1: when `connection::connect`, `watch_state` and `state` return, `connect` returns a
future. If the state read at the call is connected, the future is already fulfilled with a
client of that connection. Otherwise, for every state `s` the state-change signal resolves
with, the future resolves to a client if and only if `s` is connected, and for every other
`s` it resolves to the `runtime_error` "Unexpected state: " followed by `to_string(s)`. -/
theorem connect_resolves_by_state {F : result_kind → Type}
    (connection_connect : connection_params → Except Exception (connection (Except Exception) F))
    (to_string : state → String) (conn_params : connection_params)
    (conn : connection (Except Exception) F) (state_change_fut : future state state)
    (st : state)
    (hconn : connection_connect conn_params = Except.ok conn)
    (hwatch : conn.watch_state = Except.ok state_change_fut)
    (hstate : conn.state = Except.ok st) :
    ∃ fut, client.connect connection_connect to_string conn_params = Except.ok fut ∧
      (st = state.connected → fut = future.fulfilled (Except.ok (client.mk conn))) ∧
      (st ≠ state.connected → ∀ (sig : Try state) (s : state),
        state_change_fut.result sig = Except.ok s →
          ((∃ cl, fut.result sig = Except.ok cl) ↔ s = state.connected) ∧
          (s = state.connected → fut.result sig = Except.ok (client.mk conn)) ∧
          (s ≠ state.connected → fut.result sig =
            Except.error (Exception.runtime_error ("Unexpected state: " ++ to_string s)))) := by
  by_cases hst : st = state.connected
  · refine ⟨future.fulfilled (Except.ok (client.mk conn)), ?_, fun _ => rfl,
      fun h => absurd hst h⟩
    simp [client.connect, client.connect_try, hconn, hwatch, hstate, hst, tryCatch,
      tryCatchThe, MonadExceptOf.tryCatch, Except.tryCatch, bind, Except.bind, pure,
      Except.pure, promise_setValue]
  · refine ⟨state_change_fut.thenValue (fun s =>
      if s = state.connected then Except.ok (client.mk conn)
      else Except.error (Exception.runtime_error ("Unexpected state: " ++ to_string s))),
      ?_, fun h => absurd h hst, ?_⟩
    · simp [client.connect, client.connect_try, hconn, hwatch, hstate, hst, tryCatch,
        tryCatchThe, MonadExceptOf.tryCatch, Except.tryCatch, bind, Except.bind, pure,
        Except.pure]
    · intro _ sig s hs
      have hres : (state_change_fut.thenValue (fun s =>
          if s = state.connected then Except.ok (client.mk conn)
          else Except.error
            (Exception.runtime_error ("Unexpected state: " ++ to_string s)))).result sig =
          (if s = state.connected then Except.ok (client.mk conn)
           else Except.error
            (Exception.runtime_error ("Unexpected state: " ++ to_string s))) := by
        cases state_change_fut with
        | fulfilled t =>
          simp only [future.result] at hs
          subst hs
          rfl
        | awaiting k =>
          simp only [future.result] at hs
          simp only [future.thenValue, future.result, hs]
          rfl
      rw [hres]
      by_cases hsc : s = state.connected
      · simp [hsc]
      · simp [hsc]

/-- C1 at an engine in state connecting whose state-change signal resolves with
expired. -/
theorem connect_resolves_by_state_witness :
    ∃ fut, client.connect (fun _ => Except.ok (session_engine state.connecting))
        (fun _ => "expired") ⟨["localhost:2181"], 10000, none⟩ = Except.ok fut ∧
      fut.result (Except.ok state.expired) =
        Except.error (Exception.runtime_error "Unexpected state: expired") := by
  obtain ⟨fut, hfut, _, hrest⟩ := connect_resolves_by_state
    (fun _ => Except.ok (session_engine state.connecting)) (fun _ => "expired")
    ⟨["localhost:2181"], 10000, none⟩ (session_engine state.connecting)
    (future.awaiting id) state.connecting rfl rfl rfl
  exact ⟨fut, hfut,
    (hrest (by decide) (Except.ok state.expired) state.expired rfl).2.2 (by decide)⟩

/-- C10: `connect` never lets an exception escape: it always returns a future, and when
`connection::connect`, `watch_state` or `state` raises `e`, the future returned is already
fulfilled with exactly `e`. -/
theorem connect_never_throws {F : result_kind → Type}
    (connection_connect : connection_params → Except Exception (connection (Except Exception) F))
    (to_string : state → String) (conn_params : connection_params) :
    (∃ fut, client.connect connection_connect to_string conn_params = Except.ok fut) ∧
    (∀ e, connection_connect conn_params = Except.error e →
      client.connect connection_connect to_string conn_params =
        Except.ok (future.fulfilled (Except.error e))) ∧
    (∀ conn e, connection_connect conn_params = Except.ok conn →
      conn.watch_state = Except.error e →
      client.connect connection_connect to_string conn_params =
        Except.ok (future.fulfilled (Except.error e))) ∧
    (∀ conn state_change_fut e, connection_connect conn_params = Except.ok conn →
      conn.watch_state = Except.ok state_change_fut →
      conn.state = Except.error e →
      client.connect connection_connect to_string conn_params =
        Except.ok (future.fulfilled (Except.error e))) := by
  refine ⟨?_, ?_, ?_, ?_⟩
  · unfold client.connect
    cases client.connect_try connection_connect to_string conn_params with
    | ok fut => exact ⟨fut, rfl⟩
    | error e => exact ⟨_, rfl⟩
  · intro e h1
    simp [client.connect, client.connect_try, h1, tryCatch, tryCatchThe,
      MonadExceptOf.tryCatch, Except.tryCatch, bind, Except.bind, pure, Except.pure,
      promise_setException]
  · intro conn e h1 h2
    simp [client.connect, client.connect_try, h1, h2, tryCatch, tryCatchThe,
      MonadExceptOf.tryCatch, Except.tryCatch, bind, Except.bind, pure, Except.pure,
      promise_setException]
  · intro conn fut e h1 h2 h3
    simp [client.connect, client.connect_try, h1, h2, h3, tryCatch, tryCatchThe,
      MonadExceptOf.tryCatch, Except.tryCatch, bind, Except.bind, pure, Except.pure,
      promise_setException]

end zk
